import Mathlib

/-!
Shallow embedding of `keeb_os_probe` (src/src/main.rs).

The program watches USB hotplug events, matches arriving devices against a
configured set of keyboards, locates the vendor-specific HID interface
(usage 0x61, usage page 0xFF60), and writes the 3-byte report
`[0x00, 0x2A, HOST_OS_CODE]` to it.

Machine integers (`u16` ids, `u8` report bytes) are modelled as `Nat`: the
source only compares them for equality and never performs arithmetic, so no
overflow can occur.  Effectful calls (sleep, HID enumeration, open, write,
logging) are recorded as an explicit action trace; the external environment
(the live HID device list, whether open/write succeed) is a `World` record.
-/

namespace KeebOsProbe

/-- Embeds `const HID_USAGE: u16 = 0x61;` (main.rs line 12). -/
def HID_USAGE : Nat := 0x61

/-- Embeds `const HID_USAGE_PAGE: u16 = 0xFF60;` (main.rs line 13). -/
def HID_USAGE_PAGE : Nat := 0xFF60

/-- The compile-time target OS selecting `HOST_OS_CODE` via `#[cfg(target_os)]`. -/
inductive HostOs where
  | linux
  | windows
  | macos
deriving DecidableEq, Repr

/-- Embeds `const HOST_OS_CODE: u8` — 1 on Linux, 2 on Windows, 3 on macOS
(main.rs lines 16–21, the QMK OS enum). -/
def HOST_OS_CODE : HostOs → Nat
  | .linux => 1
  | .windows => 2
  | .macos => 3

/-- Embeds `struct KeyboardConfig { vendor_id: u16, product_id: u16 }` (main.rs 49–53). -/
structure KeyboardConfig where
  vendor_id : Nat
  product_id : Nat
deriving DecidableEq, Repr

/-- Embeds `struct Config { keyboards: HashMap<String, KeyboardConfig> }` (main.rs 44–47).
The `HashMap` is modelled as its iteration sequence: a list of
(name, KeyboardConfig) entries in the (implementation-defined) order that
`self.config.keyboards.iter()` yields them. -/
structure Config where
  keyboards : List (String × KeyboardConfig)
deriving DecidableEq, Repr

/-- One entry of `hid_api.device_list()`: a `hidapi::DeviceInfo` with the
fields the program reads (`vendor_id()`, `product_id()`, `usage()`,
`usage_page()`, `path()`).  The opaque platform path is modelled as a `Nat`
identifier. -/
structure DeviceInfo where
  vendor_id : Nat
  product_id : Nat
  usage : Nat
  usage_page : Nat
  path : Nat
deriving DecidableEq, Repr

/-- The external environment a probe runs against: the current HID device
list, and whether `open_path` / `write` succeed at the native layer. -/
structure World where
  deviceList : List DeviceInfo
  openOk : Nat → Bool
  writeOk : Nat → List Nat → Bool

/-- Observable effects of a probe / arrival reaction, in execution order. -/
inductive Action where
  | sleep (ms : Nat)
  | queryDeviceList
  | logNotConnected (keeb : String)
  | openPath (path : Nat)
  | write (path : Nat) (bytes : List Nat)
deriving DecidableEq, Repr

/-- Errors `probe` can return (`anyhow::Result` error side): a failed
`open_path` or a failed `write`. -/
inductive ProbeError where
  | openFailed (path : Nat)
  | writeFailed (path : Nat)
deriving DecidableEq, Repr

/-- The config-match step inside `probe` (main.rs 68–70):
`self.config.keyboards.iter().find(|(_, kc)| kc.vendor_id == vendor_id && kc.product_id == product_id)`. -/
def match_keyboard (config : Config) (vendor_id product_id : Nat) :
    Option (String × KeyboardConfig) :=
  config.keyboards.find? fun kv =>
    kv.2.vendor_id == vendor_id && kv.2.product_id == product_id

/-- The predicate of the device-list filter inside `probe` (main.rs 73–76). -/
def interfaceMatches (vendor_id product_id : Nat) (d : DeviceInfo) : Bool :=
  d.vendor_id == vendor_id && d.product_id == product_id
    && d.usage == HID_USAGE && d.usage_page == HID_USAGE_PAGE

/-- The interface-lookup step inside `probe` (main.rs 72–77):
`self.hid_api.device_list().find(|d| d.vendor_id() == kc.vendor_id && d.product_id() == kc.product_id && d.usage() == HID_USAGE && d.usage_page() == HID_USAGE_PAGE)`. -/
def find_interface (devs : List DeviceInfo) (vendor_id product_id : Nat) :
    Option DeviceInfo :=
  devs.find? (interfaceMatches vendor_id product_id)

/-- The 3-byte report built at main.rs 82–87:
`[0 /- report ID -/, 42 /- reporting host -/, HOST_OS_CODE]`. -/
def report (os : HostOs) : List Nat :=
  [0, 42, HOST_OS_CODE os]

/-- Embeds `BoardConnection::probe` (main.rs 67–90), with the `&self` state made
explicit: the function receives the `Config` (the only engine state besides
the external HID handle) and the external `World`, and returns the
`anyhow::Result<()>` together with the trace of effects it performed. -/
def probe (world : World) (config : Config) (os : HostOs)
    (vendor_id product_id : Nat) : Except ProbeError Unit × List Action :=
  match match_keyboard config vendor_id product_id with
  | none => (.ok (), [])
  | some (keeb, keeb_config) =>
    -- thread::sleep(Duration::from_millis(50)); then hid_api.device_list()
    let pre : List Action := [.sleep 50, .queryDeviceList]
    match find_interface world.deviceList keeb_config.vendor_id keeb_config.product_id with
    | none =>
      -- eprintln!("Keeb '{keeb}' not connected"); return Ok(())
      (.ok (), pre ++ [.logNotConnected keeb])
    | some device =>
      if world.openOk device.path then
        if world.writeOk device.path (report os) then
          (.ok (), pre ++ [.openPath device.path, .write device.path (report os)])
        else
          (.error (.writeFailed device.path),
            pre ++ [.openPath device.path, .write device.path (report os)])
      else
        (.error (.openFailed device.path), pre ++ [.openPath device.path])

/-- Outcome of one `device_arrived` callback: either the handler returns and
the event loop continues, or the `.expect("Probed device")` panics and the
process dies. -/
inductive ArrivalOutcome where
  | continued (acts : List Action)
  | fatal (acts : List Action)
deriving DecidableEq, Repr

/-- Embeds `device_arrived` of the `Hotplug` impl for `BoardConnection` (main.rs 93–98).
`descriptor` is the result of `device.device_descriptor()`: `none` models
`Err(_)` (the `if let Ok(desc)` falls through), `some (vid, pid)` models a
successful read of `desc.vendor_id()` / `desc.product_id()`.  A probe error
hits `.expect("Probed device")`, i.e. a panic: `fatal`. -/
def device_arrived (world : World) (config : Config) (os : HostOs)
    (descriptor : Option (Nat × Nat)) : ArrivalOutcome :=
  match descriptor with
  | none => .continued []
  | some (vid, pid) =>
    match probe world config os vid pid with
    | (.ok _, acts) => .continued acts
    | (.error _, acts) => .fatal acts

/-- Embeds `device_left` of the `Hotplug` impl (main.rs 100): no action. -/
def device_left : ArrivalOutcome := .continued []

/-- The initialization steps `main` (main.rs 25–42) can perform, in source
order, as far as they matter to startup-failure claims. -/
inductive InitStep where
  | readConfigFile
  | hidApiNew
  | usbContextNew
  | registerHotplug
deriving DecidableEq, Repr

/-- Startup errors of `main` (each `?` / `bail!` site before the event loop). -/
inductive MainError where
  | noHotplug
  | noConfigDir
  | configUnreadable
  | configParseFailed
  | hidApiFailed
  | usbContextFailed
  | registerFailed
deriving DecidableEq, Repr

/-- The startup environment `main` runs in: hotplug capability, the config
directory lookup, the contents of `keeb_os_probe.toml` (`none` = absent or
unreadable), the TOML parse (`none` = malformed / wrong shape), and whether
the native constructors succeed. -/
structure Env where
  hasHotplug : Bool
  configDir : Option String
  configContent : Option String
  parseConfig : String → Option Config
  hidApiOk : Bool
  usbContextOk : Bool
  registerOk : Bool

/-- The startup sequence of `main` (main.rs 25–38), up to entering the event
loop: each fallible step in source order, recording which initialization
steps were reached.  `.ok ()` means the process reached
`loop { context.handle_events(None)?; }`. -/
def mainInit (e : Env) : Except MainError Unit × List InitStep :=
  if e.hasHotplug then
    match e.configDir with
    | none => (.error .noConfigDir, [])
    | some _ =>
      match e.configContent with
      | none => (.error .configUnreadable, [.readConfigFile])
      | some toml =>
        match e.parseConfig toml with
        | none => (.error .configParseFailed, [.readConfigFile])
        | some _ =>
          -- BoardConnection::new(config)? calls hidapi::HidApi::new()?
          if e.hidApiOk then
            -- rusb::Context::new()?
            if e.usbContextOk then
              -- HotplugBuilder ... .register(...)?
              if e.registerOk then
                (.ok (), [.readConfigFile, .hidApiNew, .usbContextNew, .registerHotplug])
              else
                (.error .registerFailed, [.readConfigFile, .hidApiNew, .usbContextNew])
            else
              (.error .usbContextFailed, [.readConfigFile, .hidApiNew])
          else
            (.error .hidApiFailed, [.readConfigFile])
  else
    (.error .noHotplug, [])

/-- Is an action a transport write? -/
def isWrite : Action → Bool
  | .write _ _ => true
  | _ => false

/-- Is an action a transport open? -/
def isOpen : Action → Bool
  | .openPath _ => true
  | _ => false

/-- State-passing form of `probe`: a Rust `&self` method is embedded as a
function that receives the receiver state and returns it alongside the
result; because the receiver is a shared reference, the state that comes out
is the state that went in.  The receiver state of `BoardConnection` visible
to `probe` is its `config` field (the `hid_api` handle is part of the
external `World`). -/
def probeSt (st : Config) (world : World) (os : HostOs) (vendor_id product_id : Nat) :
    Config × (Except ProbeError Unit × List Action) :=
  (st, probe world st os vendor_id product_id)

/-- Complete case analysis of `probe`: exactly one of the five source paths
is taken, and each determines the result and the full trace. -/
lemma probe_cases (w : World) (cfg : Config) (os : HostOs) (vid pid : Nat) :
    (match_keyboard cfg vid pid = none ∧ probe w cfg os vid pid = (.ok (), [])) ∨
    (∃ n kc, match_keyboard cfg vid pid = some (n, kc) ∧
      ((find_interface w.deviceList kc.vendor_id kc.product_id = none ∧
          probe w cfg os vid pid =
            (.ok (), [.sleep 50, .queryDeviceList, .logNotConnected n])) ∨
       (∃ d, find_interface w.deviceList kc.vendor_id kc.product_id = some d ∧
         ((w.openOk d.path = false ∧ probe w cfg os vid pid =
             (.error (.openFailed d.path),
               [.sleep 50, .queryDeviceList, .openPath d.path])) ∨
          (w.openOk d.path = true ∧ w.writeOk d.path (report os) = true ∧
            probe w cfg os vid pid =
              (.ok (), [.sleep 50, .queryDeviceList, .openPath d.path,
                .write d.path (report os)])) ∨
          (w.openOk d.path = true ∧ w.writeOk d.path (report os) = false ∧
            probe w cfg os vid pid =
              (.error (.writeFailed d.path),
                [.sleep 50, .queryDeviceList, .openPath d.path,
                  .write d.path (report os)])))))) := by
  rcases hm : match_keyboard cfg vid pid with _ | ⟨n, kc⟩
  · exact Or.inl ⟨rfl, by simp [probe, hm]⟩
  · refine Or.inr ⟨n, kc, rfl, ?_⟩
    rcases hf : find_interface w.deviceList kc.vendor_id kc.product_id with _ | d
    · exact Or.inl ⟨rfl, by simp [probe, hm, hf]⟩
    · refine Or.inr ⟨d, rfl, ?_⟩
      cases ho : w.openOk d.path
      · exact Or.inl ⟨rfl, by simp [probe, hm, hf, ho]⟩
      · cases hw : w.writeOk d.path (report os)
        · exact Or.inr (Or.inr ⟨rfl, rfl, by simp [probe, hm, hf, ho, hw]⟩)
        · exact Or.inr (Or.inl ⟨rfl, rfl, by simp [probe, hm, hf, ho, hw]⟩)

/-- Every write action in a probe trace carries the fixed report, and stems
from a config match followed by a successful interface lookup and open. -/
lemma write_mem_probe {w : World} {cfg : Config} {os : HostOs}
    {vid pid p : Nat} {b : List Nat}
    (h : Action.write p b ∈ (probe w cfg os vid pid).2) :
    b = report os ∧
      ∃ n kc d, match_keyboard cfg vid pid = some (n, kc) ∧
        find_interface w.deviceList kc.vendor_id kc.product_id = some d ∧
        p = d.path ∧ w.openOk d.path = true := by
  rcases probe_cases w cfg os vid pid with ⟨hm, hp⟩ | ⟨n, kc, hm, hrest⟩
  · rw [hp] at h; simp at h
  · rcases hrest with ⟨hf, hp⟩ | ⟨d, hf, hcase⟩
    · rw [hp] at h; simp at h
    · rcases hcase with ⟨ho, hp⟩ | ⟨ho, hw, hp⟩ | ⟨ho, hw, hp⟩ <;> rw [hp] at h <;>
        simp at h
      · exact ⟨h.2, n, kc, d, hm, hf, h.1, ho⟩
      · exact ⟨h.2, n, kc, d, hm, hf, h.1, ho⟩

/-- Every open action in a probe trace targets the path of the device the
interface lookup returned. -/
lemma open_mem_probe {w : World} {cfg : Config} {os : HostOs}
    {vid pid p : Nat}
    (h : Action.openPath p ∈ (probe w cfg os vid pid).2) :
    ∃ n kc d, match_keyboard cfg vid pid = some (n, kc) ∧
      find_interface w.deviceList kc.vendor_id kc.product_id = some d ∧
      p = d.path := by
  rcases probe_cases w cfg os vid pid with ⟨hm, hp⟩ | ⟨n, kc, hm, hrest⟩
  · rw [hp] at h; simp at h
  · rcases hrest with ⟨hf, hp⟩ | ⟨d, hf, hcase⟩
    · rw [hp] at h; simp at h
    · rcases hcase with ⟨ho, hp⟩ | ⟨ho, hw, hp⟩ | ⟨ho, hw, hp⟩ <;> rw [hp] at h <;>
        simp at h <;> exact ⟨n, kc, d, hm, hf, h⟩

/-- A successful `List.find?` splits the list at the first satisfying
element: everything before it fails the predicate. -/
lemma find?_first_split {α : Type} (p : α → Bool) :
    ∀ (l : List α) (a : α), l.find? p = some a →
      ∃ l₁ l₂, l = l₁ ++ a :: l₂ ∧ p a = true ∧ ∀ x ∈ l₁, p x = false := by
  intro l
  induction l with
  | nil => intro a h; simp at h
  | cons x xs ih =>
    intro a h
    cases hx : p x
    · rw [List.find?_cons_of_neg _ (by simp [hx])] at h
      obtain ⟨l₁, l₂, hl, hpa, hfl⟩ := ih a h
      refine ⟨x :: l₁, l₂, by simp [hl], hpa, ?_⟩
      intro y hy
      rcases List.mem_cons.mp hy with rfl | hy
      · exact hx
      · exact hfl y hy
    · rw [List.find?_cons_of_pos _ hx] at h
      injection h with h
      exact ⟨[], xs, by rw [h]; rfl, h ▸ hx, by simp⟩

/-! Concrete fixtures used by the witness theorems: a configuration with one
keyboard "ergo" (0x1234, 0x5678), a correct vendor interface, an interface
with a wrong usage, and a few worlds. -/

/-- Fixture: configuration with the single keyboard "ergo". -/
def cfgErgo : Config := ⟨[("ergo", ⟨0x1234, 0x5678⟩)]⟩

/-- Fixture: the vendor-specific interface of the "ergo" keyboard. -/
def devErgo : DeviceInfo := ⟨0x1234, 0x5678, 0x61, 0xFF60, 7⟩

/-- Fixture: same device ids but the standard-keyboard usage, not 0x61. -/
def devWrongUsage : DeviceInfo := ⟨0x1234, 0x5678, 0x06, 0x0001, 8⟩

/-- Fixture: a second interface identical to `devErgo` in all four matched
fields, differing only in path — a duplicate. -/
def devErgoDup : DeviceInfo := ⟨0x1234, 0x5678, 0x61, 0xFF60, 9⟩

/-- Fixture: world where the wrong-usage interface precedes the right one
and the transport succeeds. -/
def worldGood : World := ⟨[devWrongUsage, devErgo], fun _ => true, fun _ _ => true⟩

/-- Fixture: world with no HID interfaces at all. -/
def worldEmpty : World := ⟨[], fun _ => false, fun _ _ => false⟩

/-- Fixture: world where the interface is present but `open_path` fails. -/
def worldOpenFails : World := ⟨[devErgo], fun _ => false, fun _ _ => false⟩

/-- Fixture: world with two duplicate matching interfaces. -/
def worldDup : World := ⟨[devErgo, devErgoDup], fun _ => true, fun _ _ => true⟩

/-- C1: every report written to a matched HID interface is exactly the
3-byte sequence [0x00, 0x2A, host_os_code] — byte 0 the mandatory report ID,
byte 1 the command 42, byte 2 the host OS code drawn from
{1 = Linux, 2 = Windows, 3 = macOS}; the code is always sent (Variant A),
never omitted. -/
theorem probe_writes_exact_report (w : World) (cfg : Config) (os : HostOs)
    (vid pid p : Nat) (b : List Nat)
    (h : Action.write p b ∈ (probe w cfg os vid pid).2) :
    b = [0, 42, HOST_OS_CODE os] ∧ b.length = 3 ∧
      (HOST_OS_CODE os = 1 ∨ HOST_OS_CODE os = 2 ∨ HOST_OS_CODE os = 3) := by
  obtain ⟨hb, -⟩ := write_mem_probe h
  refine ⟨hb, by simp [hb, report], ?_⟩
  cases os <;> simp [HOST_OS_CODE]

/-- C1 witness: in the concrete good world the probe writes, and the write
is [0, 42, 1] on Linux. -/
theorem probe_writes_exact_report_witness :
    ([0, 42, 1] : List Nat) = [0, 42, HOST_OS_CODE .linux] ∧
      ([0, 42, 1] : List Nat).length = 3 ∧
      (HOST_OS_CODE .linux = 1 ∨ HOST_OS_CODE .linux = 2 ∨ HOST_OS_CODE .linux = 3) :=
  probe_writes_exact_report worldGood cfgErgo .linux 0x1234 0x5678 7 [0, 42, 1]
    (by decide)

/-- C2: the interface lookup selects only device-list entries whose vendor
id, product id, usage, and usage page simultaneously equal the target ids
and (0x61, 0xFF60); an entry with a different usage or usage page is never
returned, and every open or write a probe performs targets the path of the
entry the lookup returned. -/
theorem find_interface_requires_all_four_fields (devs : List DeviceInfo)
    (w : World) (cfg : Config) (os : HostOs) (vid pid : Nat) :
    (∀ d, find_interface devs vid pid = some d →
      d.vendor_id = vid ∧ d.product_id = pid ∧
        d.usage = HID_USAGE ∧ d.usage_page = HID_USAGE_PAGE) ∧
    (∀ d, d ∈ devs → (d.usage ≠ HID_USAGE ∨ d.usage_page ≠ HID_USAGE_PAGE) →
      find_interface devs vid pid ≠ some d) ∧
    (∀ p, (Action.openPath p ∈ (probe w cfg os vid pid).2 ∨
           ∃ b, Action.write p b ∈ (probe w cfg os vid pid).2) →
      ∃ n kc d, match_keyboard cfg vid pid = some (n, kc) ∧
        find_interface w.deviceList kc.vendor_id kc.product_id = some d ∧
        p = d.path) := by
  have hfields : ∀ d, find_interface devs vid pid = some d →
      d.vendor_id = vid ∧ d.product_id = pid ∧
        d.usage = HID_USAGE ∧ d.usage_page = HID_USAGE_PAGE := by
    intro d hd
    have := List.find?_some hd
    simpa [interfaceMatches, and_assoc] using this
  refine ⟨hfields, ?_, ?_⟩
  · intro d _ hbad hd
    have h4 := hfields d hd
    rcases hbad with hbad | hbad
    · exact hbad h4.2.2.1
    · exact hbad h4.2.2.2
  · intro p hp
    rcases hp with hp | ⟨b, hp⟩
    · exact open_mem_probe hp
    · obtain ⟨-, n, kc, d, hm, hf, hpath, -⟩ := write_mem_probe hp
      exact ⟨n, kc, d, hm, hf, hpath⟩

/-- C2 witness: the wrong-usage interface, though its vendor/product ids
match, is never selected in the concrete world. -/
theorem find_interface_requires_all_four_fields_witness :
    find_interface [devWrongUsage, devErgo] 0x1234 0x5678 ≠ some devWrongUsage :=
  (find_interface_requires_all_four_fields [devWrongUsage, devErgo] worldGood
      cfgErgo .linux 0x1234 0x5678).2.1 devWrongUsage (by decide)
    (Or.inl (by decide))

/-- C3: when the configured keyboard matches but no device-list entry
matches all four fields, probe logs a not-connected notice and returns Ok
with no open and no write; the arrival handler continues, so the condition
never propagates as an error. -/
theorem probe_not_connected_is_ok (w : World) (cfg : Config) (os : HostOs)
    (vid pid : Nat) (n : String) (kc : KeyboardConfig)
    (hm : match_keyboard cfg vid pid = some (n, kc))
    (hf : find_interface w.deviceList kc.vendor_id kc.product_id = none) :
    probe w cfg os vid pid =
      (.ok (), [.sleep 50, .queryDeviceList, .logNotConnected n]) ∧
    device_arrived w cfg os (some (vid, pid)) =
      .continued [.sleep 50, .queryDeviceList, .logNotConnected n] := by
  constructor
  · simp [probe, hm, hf]
  · simp [device_arrived, probe, hm, hf]

/-- C3 witness: with the "ergo" config and an empty device list, the probe
returns Ok after logging, and the handler continues. -/
theorem probe_not_connected_is_ok_witness :
    probe worldEmpty cfgErgo .linux 0x1234 0x5678 =
      (.ok (), [.sleep 50, .queryDeviceList, .logNotConnected "ergo"]) ∧
    device_arrived worldEmpty cfgErgo .linux (some (0x1234, 0x5678)) =
      .continued [.sleep 50, .queryDeviceList, .logNotConnected "ergo"] :=
  probe_not_connected_is_ok worldEmpty cfgErgo .linux 0x1234 0x5678 "ergo"
    ⟨0x1234, 0x5678⟩ (by decide) (by decide)

/-- C4: when no configured keyboard's (vendor_id, product_id) pair equals
the input, probe performs no action at all — empty trace: no delay, no HID
device-list query, no open, no write — and returns Ok. -/
theorem probe_unconfigured_pair_is_noop (w : World) (cfg : Config) (os : HostOs)
    (vid pid : Nat)
    (h : ∀ kv ∈ cfg.keyboards, ¬(kv.2.vendor_id = vid ∧ kv.2.product_id = pid)) :
    probe w cfg os vid pid = (.ok (), []) := by
  have hm : match_keyboard cfg vid pid = none := by
    rw [match_keyboard, List.find?_eq_none]
    intro kv hkv
    simpa using h kv hkv
  simp [probe, hm]

/-- C4 witness: the pair (0x1111, 0x2222) is not configured, so the probe
against the good world is a no-op returning Ok. -/
theorem probe_unconfigured_pair_is_noop_witness :
    probe worldGood cfgErgo .linux 0x1111 0x2222 = (.ok (), []) :=
  probe_unconfigured_pair_is_noop worldGood cfgErgo .linux 0x1111 0x2222
    (by decide)

/-- C5: a probe error for a matched device hits `.expect("Probed device")`
in `device_arrived`, so the failure is fatal to the process — the handler
does not continue after a transport open/write failure. -/
theorem probe_error_fatal_to_handler (w : World) (cfg : Config) (os : HostOs)
    (vid pid : Nat) (err : ProbeError) (acts : List Action)
    (h : probe w cfg os vid pid = (.error err, acts)) :
    device_arrived w cfg os (some (vid, pid)) = .fatal acts := by
  simp [device_arrived, h]

/-- C5 witness: in the world where `open_path` fails, the arrival handler
dies instead of continuing. -/
theorem probe_error_fatal_to_handler_witness :
    device_arrived worldOpenFails cfgErgo .linux (some (0x1234, 0x5678)) =
      .fatal [.sleep 50, .queryDeviceList, .openPath 7] :=
  probe_error_fatal_to_handler worldOpenFails cfgErgo .linux 0x1234 0x5678
    (.openFailed 7) [.sleep 50, .queryDeviceList, .openPath 7] (by rfl)

/-- C6: when the configuration file is absent/unreadable or fails to parse,
`main` returns an error (non-zero exit) and neither `hidapi::HidApi::new`
nor `rusb::Context::new` is ever reached; no configuration value is
produced. -/
theorem startup_config_failure_before_init (e : Env)
    (h : e.configContent = none ∨
      ∃ s, e.configContent = some s ∧ e.parseConfig s = none) :
    (∃ err, (mainInit e).1 = .error err) ∧
      InitStep.hidApiNew ∉ (mainInit e).2 ∧
      InitStep.usbContextNew ∉ (mainInit e).2 := by
  cases hh : e.hasHotplug
  · exact ⟨⟨.noHotplug, by simp [mainInit, hh]⟩, by simp [mainInit, hh],
      by simp [mainInit, hh]⟩
  · rcases hd : e.configDir with _ | dir
    · exact ⟨⟨.noConfigDir, by simp [mainInit, hh, hd]⟩,
        by simp [mainInit, hh, hd], by simp [mainInit, hh, hd]⟩
    · rcases h with hc | ⟨s, hs, hp⟩
      · exact ⟨⟨.configUnreadable, by simp [mainInit, hh, hd, hc]⟩,
          by simp [mainInit, hh, hd, hc], by simp [mainInit, hh, hd, hc]⟩
      · exact ⟨⟨.configParseFailed, by simp [mainInit, hh, hd, hs, hp]⟩,
          by simp [mainInit, hh, hd, hs, hp], by simp [mainInit, hh, hd, hs, hp]⟩

/-- Fixture: startup environment whose configuration file is absent. -/
def envAbsentConfig : Env :=
  ⟨true, some "config-dir", none, fun _ => none, true, true, true⟩

/-- C6 witness: with the config file absent, startup errors out and neither
native subsystem constructor runs. -/
theorem startup_config_failure_before_init_witness :
    (∃ err, (mainInit envAbsentConfig).1 = .error err) ∧
      InitStep.hidApiNew ∉ (mainInit envAbsentConfig).2 ∧
      InitStep.usbContextNew ∉ (mainInit envAbsentConfig).2 :=
  startup_config_failure_before_init envAbsentConfig (Or.inl rfl)

/-- C7: the interface lookup deterministically returns the first matching
entry in enumeration order (everything before it fails the four-field
match), and a single probe performs at most one write — exactly one when a
match is found and opened. -/
theorem duplicate_interfaces_one_write (w : World) (cfg : Config) (os : HostOs)
    (vid pid : Nat) :
    ((probe w cfg os vid pid).2.countP isWrite ≤ 1) ∧
    (∀ d, find_interface w.deviceList vid pid = some d →
      ∃ l₁ l₂, w.deviceList = l₁ ++ d :: l₂ ∧
        interfaceMatches vid pid d = true ∧
        ∀ x ∈ l₁, interfaceMatches vid pid x = false) ∧
    (∀ n kc d, match_keyboard cfg vid pid = some (n, kc) →
      find_interface w.deviceList kc.vendor_id kc.product_id = some d →
      w.openOk d.path = true →
      (probe w cfg os vid pid).2.countP isWrite = 1) := by
  refine ⟨?_, ?_, ?_⟩
  · rcases probe_cases w cfg os vid pid with ⟨hm, hp⟩ | ⟨n, kc, hm, hrest⟩
    · simp [hp, isWrite]
    · rcases hrest with ⟨hf, hp⟩ | ⟨d, hf, hcase⟩
      · simp [hp, isWrite]
      · rcases hcase with ⟨ho, hp⟩ | ⟨ho, hw, hp⟩ | ⟨ho, hw, hp⟩ <;>
          simp [hp, isWrite, List.countP_cons]
  · intro d hd
    exact find?_first_split _ _ _ hd
  · intro n kc d hm hf ho
    rcases probe_cases w cfg os vid pid with ⟨hm', hp⟩ | ⟨n', kc', hm', hrest⟩
    · rw [hm'] at hm; cases hm
    · have hpair : n' = n ∧ kc' = kc := by
        have := hm'.symm.trans hm
        simpa using this
      obtain ⟨rfl, rfl⟩ := hpair
      rcases hrest with ⟨hf', hp⟩ | ⟨d', hf', hcase⟩
      · rw [hf'] at hf; cases hf
      · have hd : d' = d := by
          have := hf'.symm.trans hf
          simpa using this
        subst hd
        rcases hcase with ⟨ho', hp⟩ | ⟨ho', hw, hp⟩ | ⟨ho', hw, hp⟩
        · rw [ho'] at ho; cases ho
        · simp [hp, isWrite, List.countP_cons]
        · simp [hp, isWrite, List.countP_cons]

/-- C7 witness: with two duplicate matching interfaces the lookup picks the
first (path 7, not path 9) and the probe writes exactly once. -/
theorem duplicate_interfaces_one_write_witness :
    find_interface worldDup.deviceList 0x1234 0x5678 = some devErgo ∧
      (probe worldDup cfgErgo .linux 0x1234 0x5678).2.countP isWrite = 1 :=
  ⟨by decide,
    (duplicate_interfaces_one_write worldDup cfgErgo .linux 0x1234 0x5678).2.2
      "ergo" ⟨0x1234, 0x5678⟩ devErgo (by decide) (by decide) (by decide)⟩

/-- C8: `probe` carries no state between invocations: the receiver state
comes back unchanged, rerunning with that state against the same world
yields an identical result and trace, and every write either run performs
carries the same fixed 3-byte content. -/
theorem probe_stateless_identical_runs (st : Config) (w : World) (os : HostOs)
    (vid pid : Nat) :
    (probeSt st w os vid pid).1 = st ∧
    probeSt ((probeSt st w os vid pid).1) w os vid pid = probeSt st w os vid pid ∧
    (∀ p b, Action.write p b ∈ (probeSt st w os vid pid).2.2 →
      b = [0, 42, HOST_OS_CODE os]) :=
  ⟨rfl, rfl, fun _ b h => by simpa [report] using (write_mem_probe h).1⟩

/-- C8 witness: two consecutive probes of the matched "ergo" device leave
the configuration unchanged and coincide. -/
theorem probe_stateless_identical_runs_witness :
    (probeSt cfgErgo worldGood .linux 0x1234 0x5678).1 = cfgErgo ∧
    probeSt ((probeSt cfgErgo worldGood .linux 0x1234 0x5678).1) worldGood
        .linux 0x1234 0x5678 =
      probeSt cfgErgo worldGood .linux 0x1234 0x5678 :=
  ⟨(probe_stateless_identical_runs cfgErgo worldGood .linux 0x1234 0x5678).1,
   (probe_stateless_identical_runs cfgErgo worldGood .linux 0x1234 0x5678).2.1⟩

/-- C9 counterexample: the program has no delay-free enumeration path.
Already-connected devices are delivered as arrival events (hotplug
registration with enumerate(true)) and handled by `probe`, whose trace
begins with the 50 ms sleep before the device-list query — refuting the
claim that enumeration calls the interface lookup directly with no delay. -/
theorem enumeration_mode_counterexample :
    device_arrived worldGood cfgErgo .linux (some (0x1234, 0x5678)) =
      .continued [.sleep 50, .queryDeviceList, .openPath 7,
        .write 7 [0, 42, 1]] ∧
    (probe worldGood cfgErgo .linux 0x1234 0x5678).2.head? =
      some (.sleep 50) := by
  decide

/-- C9 amended: startup enumeration goes through the same arrival handler;
for a configured device the probe applies the fixed 50 ms delay before the
interface lookup, and when the interface is absent it logs not-connected
and the handler continues (returns Ok) rather than aborting. -/
theorem enumeration_arrivals_use_delay_path (w : World) (cfg : Config)
    (os : HostOs) (vid pid : Nat) (n : String) (kc : KeyboardConfig)
    (hm : match_keyboard cfg vid pid = some (n, kc)) :
    ((probe w cfg os vid pid).2.take 2 = [.sleep 50, .queryDeviceList]) ∧
    (find_interface w.deviceList kc.vendor_id kc.product_id = none →
      device_arrived w cfg os (some (vid, pid)) =
        .continued [.sleep 50, .queryDeviceList, .logNotConnected n]) := by
  constructor
  · rcases probe_cases w cfg os vid pid with ⟨hm', hp⟩ | ⟨n', kc', hm', hrest⟩
    · rw [hm'] at hm; cases hm
    · rcases hrest with ⟨hf', hp⟩ | ⟨d, hf', hcase⟩
      · simp [hp]
      · rcases hcase with ⟨ho, hp⟩ | ⟨ho, hw, hp⟩ | ⟨ho, hw, hp⟩ <;> simp [hp]
  · intro hf
    simp [device_arrived, probe, hm, hf]

/-- C9 amended witness: with the device absent, the enumerated arrival for
"ergo" sleeps, queries, logs not-connected, and the handler continues. -/
theorem enumeration_arrivals_use_delay_path_witness :
    ((probe worldEmpty cfgErgo .linux 0x1234 0x5678).2.take 2 =
      [.sleep 50, .queryDeviceList]) ∧
    device_arrived worldEmpty cfgErgo .linux (some (0x1234, 0x5678)) =
      .continued [.sleep 50, .queryDeviceList, .logNotConnected "ergo"] :=
  ⟨(enumeration_arrivals_use_delay_path worldEmpty cfgErgo .linux 0x1234 0x5678
      "ergo" ⟨0x1234, 0x5678⟩ (by decide)).1,
   (enumeration_arrivals_use_delay_path worldEmpty cfgErgo .linux 0x1234 0x5678
      "ergo" ⟨0x1234, 0x5678⟩ (by decide)).2 (by decide)⟩

/-- C10: when reading the arriving device's descriptor fails, the handler
does nothing at all — no probe, no actions, no panic — and the reactor
keeps running. -/
theorem descriptor_error_silently_ignored (w : World) (cfg : Config)
    (os : HostOs) :
    device_arrived w cfg os none = .continued [] := rfl

end KeebOsProbe
